import Mathlib

/-!
Shallow embedding of the ultimate-notion session layer
(src/ultimate_notion/session.py, src/ultimate_notion/utils.py):
the wrap/unwrap registry, the TTL cache composed by Session.set_cache,
search_db, get_user, whoami, all_users, raise_for_status and SList.item.
Python machine-level details (object identity, exception classes) are
modelled explicitly: object identity by an objId token, exceptions by a
PyError sum type.
-/

namespace UltimateNotion

/-- Python exception kinds that appear in the embedded code.
keyError models KeyError, which is a subclass of LookupError in Python. -/
inductive PyError where
  | valueError (msg : String)
  | keyError
  | notImplementedError
  | sessionError (msg : String)
  | connectError
  | apiResponseError (msg : String)
  | runtimeError (msg : String)
  | typeError (msg : String)
  deriving DecidableEq

/-- Python: isinstance(e, LookupError). KeyError and IndexError are the
LookupError subclasses; only KeyError occurs in the embedded code. -/
def PyError.isLookupError : PyError → Bool
  | PyError.keyError => true
  | _ => false

/-- SList.item from utils.py lines 28-35: return the sole element of a
one-element list, raise ValueError otherwise.  The source interpolates the
element type name into the second message; the embedding keeps a fixed text. -/
def SList.item {T : Type} (xs : List T) : Except PyError T :=
  if h : xs.length = 1 then
    Except.ok (xs.get ⟨0, by omega⟩)
  else if xs.length = 0 then
    Except.error (PyError.valueError "list is empty")
  else
    Except.error (PyError.valueError "list of objects has more than one element")

/-- A raw obj-api object (notional block or type).  kind models
type(obj) as a tag; objId models the Python id() of the instance, so that
identity preservation is visible in the model. -/
structure RawObject where
  kind : Nat
  objId : Nat
  deriving DecidableEq

/-- A high-level wrapper instance: its class tag and its obj_ref attribute,
as set by Wrapper.wrap_obj_ref (utils.py lines 223-229). -/
structure HighLevelObject where
  cls : Nat
  obj_ref : RawObject
  deriving DecidableEq

/-- The class-level dict Wrapper._obj_api_map, raw kind tag to wrapper class
tag.  Passed explicitly since the embedding has no mutable class state. -/
abbrev Registry := List (Nat × Nat)

/-- Python dict assignment m[k] = v: later assignment overwrites. -/
def dictSet (m : Registry) (k v : Nat) : Registry :=
  (k, v) :: m.filter (fun p => decide (p.1 ≠ k))

/-- Python dict lookup m[k] returning none instead of raising KeyError. -/
def dictGet (m : Registry) (k : Nat) : Option Nat :=
  match m.find? (fun p => decide (p.1 = k)) with
  | some p => some p.2
  | none => none

/-- Wrapper subclass registration, utils.py lines 210-212:
cls._obj_api_map[wraps] = cls.  A plain dict assignment with no check. -/
def Wrapper.initSubclass (m : Registry) (wrapsKind clsTag : Nat) : Registry :=
  dictSet m wrapsKind clsTag

/-- Wrapper.wrap_obj_ref, utils.py lines 223-229: look up type(obj_ref) in
_obj_api_map, allocate the wrapper class with new, and assign obj_ref to the
given raw object itself.  An unregistered kind makes the dict lookup raise
KeyError. -/
def Wrapper.wrap_obj_ref (m : Registry) (r : RawObject) : Except PyError HighLevelObject :=
  match dictGet m r.kind with
  | some hlCls => Except.ok { cls := hlCls, obj_ref := r }
  | none => Except.error PyError.keyError

/-- The key computed by the external cachetools.keys.hashkey for a call of a
wrapped bound method: the tuple of the call arguments only (the method itself
is not part of the key).  The uuid-taking methods produce a one-element tuple,
search_db a three-element tuple, so only same-arity keys can ever be equal. -/
inductive CacheKey where
  | uuidKey (u : Nat)
  | searchKey (dbName : Option String) (exactFlag : Bool)
  deriving DecidableEq

/-- Raw values the transport returns for the cached accessors. -/
inductive RawValue where
  | dbBlock (u : Nat)
  | pageBlock (u : Nat)
  | userObj (u : Nat)
  deriving DecidableEq

/-- A transport round trip, recorded to count network calls. -/
inductive TransportCall where
  | dbRetrieve (u : Nat)
  | pageRetrieve (u : Nat)
  | userRetrieve (u : Nat)
  deriving DecidableEq

/-- One entry of the TTLCache: key, stored value, absolute expiry time.
TTLCache regards an entry as present while now < expires. -/
structure CacheEntry where
  key : CacheKey
  val : RawValue
  expires : Nat
  deriving DecidableEq

/-- The mutable state of a Session after set_cache (session.py lines 59-64):
the single TTLCache instance shared by all four wrapped methods, its
configuration, a discrete clock, and the log of transport calls issued.
maxsize is carried but eviction is not modelled: every run here stays far
below 1024 entries, where TTLCache evicts nothing. -/
structure SessionState where
  cache : List CacheEntry
  ttl : Nat
  maxsize : Nat
  now : Nat
  transportCalls : List TransportCall
  deriving DecidableEq

/-- Session.set_cache(ttl=30, maxsize=1024), session.py lines 59-64: build one
TTLCache and wrap search_db, _get_db, _get_page and _get_user with the same
cached decorator, hence the same cache instance for all four. -/
def Session.set_cache (ttl maxsize : Nat) : SessionState :=
  { cache := [], ttl := ttl, maxsize := maxsize, now := 0, transportCalls := [] }

/-- TTLCache lookup: the first entry with this key that has not expired. -/
def cacheLookup (c : List CacheEntry) (k : CacheKey) (now : Nat) : Option RawValue :=
  match c.find? (fun e => decide (e.key = k) && decide (now < e.expires)) with
  | some e => some e.val
  | none => none

/-- TTLCache store: the entry expires at now + ttl; an older entry for the
same key is superseded. -/
def cacheStore (c : List CacheEntry) (k : CacheKey) (v : RawValue) (now ttl : Nat) : List CacheEntry :=
  { key := k, val := v, expires := now + ttl } :: c.filter (fun e => decide (e.key ≠ k))

/-- The behaviour of a method wrapped by the external cachetools cached
decorator: compute the key from the arguments, return the cached value on a
hit, otherwise perform the transport call, store the result and return it. -/
def cachedCall (st : SessionState) (k : CacheKey) (call : TransportCall) (result : RawValue) :
    RawValue × SessionState :=
  match cacheLookup st.cache k st.now with
  | some v => (v, st)
  | none =>
      (result,
        { st with
          cache := cacheStore st.cache k result st.now st.ttl,
          transportCalls := st.transportCalls ++ [call] })

/-- Session._get_db after set_cache, session.py lines 62 and 124-129: a
cached call whose key is the one-element tuple of the uuid and whose
transport is notional.databases.retrieve(uuid). -/
def Session.getDbCached (st : SessionState) (u : Nat) : RawValue × SessionState :=
  cachedCall st (CacheKey.uuidKey u) (TransportCall.dbRetrieve u) (RawValue.dbBlock u)

/-- Session._get_page after set_cache, session.py lines 63 and 143-148:
same key shape as _get_db, transport notional.pages.retrieve(uuid). -/
def Session.getPageCached (st : SessionState) (u : Nat) : RawValue × SessionState :=
  cachedCall st (CacheKey.uuidKey u) (TransportCall.pageRetrieve u) (RawValue.pageBlock u)

/-- Session._get_user after set_cache, session.py lines 64 and 154-155:
same key shape again, transport notional.users.retrieve(uuid). -/
def Session.getUserCached (st : SessionState) (u : Nat) : RawValue × SessionState :=
  cachedCall st (CacheKey.uuidKey u) (TransportCall.userRetrieve u) (RawValue.userObj u)

/-- A Python value that is either a raw notional user or a high-level User
wrapper holding a raw user as obj_ref.  The User class itself (user.py) is
not under src; only what session.py observably does with it is modelled. -/
inductive UserValue where
  | raw (u : Nat)
  | wrapped (objRefId : Nat)
  deriving DecidableEq

/-- True for a high-level User wrapper instance. -/
def UserValue.isHighLevel : UserValue → Bool
  | UserValue.raw _ => false
  | UserValue.wrapped _ => true

/-- Session.get_user, session.py lines 157-159: it calls
notional.users.retrieve(user_uuid) directly and wraps the result; the cached
_get_user is never consulted, and the signature has no use_cache parameter. -/
def Session.get_user (st : SessionState) (u : Nat) : UserValue × SessionState :=
  (UserValue.wrapped u,
    { st with transportCalls := st.transportCalls ++ [TransportCall.userRetrieve u] })

/-- Session.whoami, session.py lines 161-163: returns notional.users.me()
itself, without wrapping it into the high-level User class. -/
def Session.whoami (meId : Nat) : UserValue :=
  UserValue.raw meId

/-- Session.all_users, session.py lines 165-167: wraps every raw user from
notional.users.list() into a high-level User. -/
def Session.all_users (ids : List Nat) : List UserValue :=
  ids.map UserValue.wrapped

/-- Whether the first list of characters begins with the second. -/
def startsWithList : List Char → List Char → Bool
  | _, [] => true
  | [], _ :: _ => false
  | a :: as, b :: bs => decide (a = b) && startsWithList as bs

/-- Whether needle occurs as a contiguous run somewhere in the haystack. -/
def substrAux (needle : List Char) : List Char → Bool
  | [] => needle.isEmpty
  | c :: rest => startsWithList (c :: rest) needle || substrAux needle rest

/-- Python substring containment: needle in hay. -/
def strContains (hay needle : String) : Bool :=
  substrAux needle.toList hay.toList

/-- Modelled from the spec: the high-level Database wrapper (database.py is
not under src) exposes the title computed from its raw block. -/
structure Database where
  title : String
  deriving DecidableEq

/-- Modelled from the spec: the external transport search
notional.search(db_name) filtered to databases returns every database whose
title has db_name as a substring, and every database when db_name is none. -/
def notionalSearchDbs (allTitles : List String) (dbName : Option String) : List String :=
  match dbName with
  | none => allTitles
  | some n => allTitles.filter (fun t => strContains t n)

/-- Session.search_db, session.py lines 104-122: raise NotImplementedError
as soon as parents is not None, otherwise run the transport search, wrap each
raw block into a Database, and if exact is true and a name was given keep
only exact title matches.  allTitles stands for the titles of all databases
of the workspace; exactFlag is the source argument named exact. -/
def Session.search_db (allTitles : List String) (dbName : Option String)
    (exactFlag : Bool) (parents : Option (List String)) : Except PyError (List Database) :=
  match parents with
  | some _ => Except.error PyError.notImplementedError
  | none =>
      let dbs : List Database := (notionalSearchDbs allTitles dbName).map Database.mk
      match dbName, exactFlag with
      | some n, true => Except.ok (dbs.filter (fun db => decide (db.title = n)))
      | _, _ => Except.ok dbs

/-- The parents argument of a search_db call as a Python value: None, a
list (Python lists are unhashable) or a tuple (hashable).  The claimed
input parents=[...] is a list. -/
inductive ParentsArg where
  | pyNone
  | pyList (ps : List String)
  | pyTuple (ps : List String)
  deriving DecidableEq

/-- Python hashability of the parents argument: hashing a key tuple that
contains a list raises TypeError. -/
def ParentsArg.isHashable : ParentsArg → Bool
  | ParentsArg.pyList _ => false
  | _ => true

/-- Forget the container kind: the parents value as the body sees it. -/
def ParentsArg.toOption : ParentsArg → Option (List String)
  | ParentsArg.pyNone => none
  | ParentsArg.pyList ps => some ps
  | ParentsArg.pyTuple ps => some ps

/-- The key hashkey(db_name, exact, parents) computed by the external
cachetools wrapper for a search_db call. -/
structure SearchKey where
  dbName : Option String
  exactFlag : Bool
  parents : ParentsArg
  deriving DecidableEq

/-- An entry of the shared TTLCache under a search key.  The same TTLCache
also holds the uuid-keyed entries of the three retrieval accessors; a
search key, a three-element tuple, never equals a one-element uuid key, so
the search-keyed portion of the cache is modelled on its own. -/
structure SearchCacheEntry where
  key : SearchKey
  val : List Database
  expires : Nat
  deriving DecidableEq

/-- True when no cached search entry is keyed by a non-None parents
argument.  The wrapper can never create such an entry, because the body
raises before returning a value for any non-None parents key. -/
def noParentsEntries (entries : List SearchCacheEntry) : Bool :=
  entries.all (fun e => decide (e.key.parents = ParentsArg.pyNone))

/-- The public search_db installed by set_cache: the external cachetools
cached wrapper around the body, in the order cachetools performs the
steps: build the key tuple from the arguments, hash it for the cache
lookup, which raises TypeError when parents is an unhashable Python list,
return a fresh hit, otherwise run the body and store a value it returns. -/
def Session.search_db_cached (entries : List SearchCacheEntry) (now ttl : Nat)
    (allTitles : List String) (dbName : Option String) (exactFlag : Bool)
    (parents : ParentsArg) : Except PyError (List Database × List SearchCacheEntry) :=
  if ParentsArg.isHashable parents then
    match entries.find? (fun e =>
        decide (e.key = SearchKey.mk dbName exactFlag parents)
          && decide (now < e.expires)) with
    | some e => Except.ok (e.val, entries)
    | none =>
        match Session.search_db allTitles dbName exactFlag (ParentsArg.toOption parents) with
        | Except.error err => Except.error err
        | Except.ok dbs =>
            Except.ok (dbs,
              { key := SearchKey.mk dbName exactFlag parents, val := dbs, expires := now + ttl }
                :: entries.filter
                    (fun e => decide (e.key ≠ SearchKey.mk dbName exactFlag parents)))
  else
    Except.error (PyError.typeError "unhashable type: list")

/-- The outcome of the whoami call inside raise_for_status: a value (possibly
None), a connectivity failure, a structured API failure, or any other
exception carried unchanged. -/
inductive WhoamiOutcome where
  | value (me : Option Nat)
  | connectErr
  | apiErr (msg : String)
  | otherErr (e : PyError)
  deriving DecidableEq

/-- Session.raise_for_status, session.py lines 84-102: call whoami inside a
try block; a None result raises SessionError directly (uncaught by the two
handlers, so it propagates); ConnectError and APIResponseError are caught and
turned into SessionError with the shown messages; every other exception
propagates unchanged; on success nothing is returned. -/
def Session.raise_for_status (out : WhoamiOutcome) : Except PyError Unit :=
  match out with
  | WhoamiOutcome.value (some _) => Except.ok ()
  | WhoamiOutcome.value none =>
      Except.error (PyError.sessionError "Unable to get current user")
  | WhoamiOutcome.connectErr =>
      Except.error (PyError.sessionError "Unable to connect to Notion")
  | WhoamiOutcome.apiErr msg => Except.error (PyError.sessionError msg)
  | WhoamiOutcome.otherErr e => Except.error e

/-- Every character list starts with itself. -/
theorem startsWithList_self (l : List Char) : startsWithList l l = true := by
  induction l with
  | nil => rfl
  | cons a as ih => simp [startsWithList, ih]

/-- Every string contains itself as a substring. -/
theorem strContains_self (s : String) : strContains s s = true := by
  unfold strContains
  cases h : s.toList with
  | nil => rfl
  | cons c rest => simp [substrAux, startsWithList_self]

/-- Filtering the substring matches of n down to exact title matches gives
exactly the exact title matches of the whole list. -/
theorem exact_filter_eq (n : String) (l : List String) :
    ((l.filter (fun t => strContains t n)).map Database.mk).filter
        (fun db => decide (db.title = n))
      = (l.filter (fun t => decide (t = n))).map Database.mk := by
  induction l with
  | nil => rfl
  | cons a as ih =>
    by_cases h : a = n
    · subst h
      simp [List.filter_cons, strContains_self, ih]
    · by_cases hc : strContains a n
      · simp [List.filter_cons, hc, h, ih]
      · simp [List.filter_cons, hc, h, ih]

/-- A cache whose search entries all carry parents None yields no hit for
a key with non-None parents. -/
theorem noParents_find_miss (entries : List SearchCacheEntry) (now : Nat) (k : SearchKey)
    (hinv : noParentsEntries entries = true) (hk : ¬ k.parents = ParentsArg.pyNone) :
    entries.find? (fun e => decide (e.key = k) && decide (now < e.expires)) = none := by
  refine List.find?_eq_none.mpr (fun e he => ?_)
  have h1 : e.key.parents = ParentsArg.pyNone :=
    of_decide_eq_true (List.all_eq_true.mp hinv e he)
  simp only [Bool.and_eq_true, decide_eq_true_eq]
  rintro ⟨hke, -⟩
  rw [hke] at h1
  exact hk h1

/-- Filtering preserves the no-parents-entries property. -/
theorem noParentsEntries_filter (entries : List SearchCacheEntry)
    (q : SearchCacheEntry → Bool) (hinv : noParentsEntries entries = true) :
    noParentsEntries (entries.filter q) = true := by
  refine List.all_eq_true.mpr (fun e he => ?_)
  exact List.all_eq_true.mp hinv e (List.mem_of_mem_filter he)

/-- The unwrapped search_db body raises NotImplementedError for every
non-None parents value, before any query. -/
theorem search_db_body_parents_not_implemented (allTitles : List String)
    (dbName : Option String) (exactFlag : Bool) (ps : List String) :
    Session.search_db allTitles dbName exactFlag (some ps)
      = Except.error PyError.notImplementedError := by
  rfl

/-- With parents None the search_db body never raises. -/
theorem search_db_none_ok (allTitles : List String) (dbName : Option String)
    (exactFlag : Bool) :
    ∃ dbs, Session.search_db allTitles dbName exactFlag none = Except.ok dbs := by
  cases dbName with
  | none => cases exactFlag <;> exact ⟨_, rfl⟩
  | some n => cases exactFlag <;> exact ⟨_, rfl⟩

/-- Through the wrapper, a hashable non-None parents value reaches the
body and raises NotImplementedError, provided no entry with a non-None
parents key is cached. -/
theorem search_db_cached_tuple_err (entries : List SearchCacheEntry) (now ttl : Nat)
    (allTitles : List String) (dbName : Option String) (exactFlag : Bool)
    (ps : List String) (hinv : noParentsEntries entries = true) :
    Session.search_db_cached entries now ttl allTitles dbName exactFlag (ParentsArg.pyTuple ps)
      = Except.error PyError.notImplementedError := by
  have hfind := noParents_find_miss entries now
    (SearchKey.mk dbName exactFlag (ParentsArg.pyTuple ps)) hinv (by simp)
  unfold Session.search_db_cached
  rw [hfind]
  rfl

/-- C1: the claim states that an entry cached by _get_db(id) is never
returned by _get_page(id).  On the code this fails: set_cache shares one
TTLCache keyed by arguments only across all four wrapped methods, so after
_get_db(5) a call to _get_page(5) within the TTL returns the cached database
block and issues no page transport call. -/
theorem cache_cross_method_collision :
    (Session.getPageCached ((Session.getDbCached (Session.set_cache 30 1024) 5).2) 5).1
        = RawValue.dbBlock 5
    ∧ (Session.getPageCached ((Session.getDbCached (Session.set_cache 30 1024) 5).2) 5).2.transportCalls
        = [TransportCall.dbRetrieve 5] := by
  constructor <;> rfl

/-- C2: for a raw object whose kind is registered to wrapper class w,
wrap_obj_ref returns an instance of w whose obj_ref is the given raw object
itself, objId included, so no copy is made. -/
theorem wrap_obj_ref_registered (m : Registry) (r : RawObject) (w : Nat)
    (h : dictGet m r.kind = some w) :
    Wrapper.wrap_obj_ref m r = Except.ok { cls := w, obj_ref := r } := by
  unfold Wrapper.wrap_obj_ref
  rw [h]

/-- C2 witness: a concrete registry mapping raw kind 0 to wrapper class 10
and a concrete raw object of kind 0 with identity token 42. -/
theorem wrap_obj_ref_registered_witness :
    dictGet [(0, 10)] (RawObject.mk 0 42).kind = some 10
    ∧ Wrapper.wrap_obj_ref [(0, 10)] (RawObject.mk 0 42)
        = Except.ok { cls := 10, obj_ref := RawObject.mk 0 42 } :=
  ⟨by decide, wrap_obj_ref_registered [(0, 10)] (RawObject.mk 0 42) 10 (by decide)⟩

/-- C3: the claim states that two sequential get_user(id) calls within the
TTL issue one transport call and that use_cache=false forces a refresh.  On
the code this fails: get_user calls notional.users.retrieve directly each
time, never consulting the cached _get_user, so two sequential calls issue
two transport calls (and the signature has no use_cache parameter at all,
although the test suite passes one). -/
theorem get_user_ignores_cache :
    (Session.get_user ((Session.get_user (Session.set_cache 30 1024) 7).2) 7).2.transportCalls
      = [TransportCall.userRetrieve 7, TransportCall.userRetrieve 7] := by
  rfl

/-- C4: wrapping a raw object whose kind is not in the registry fails with a
LookupError-kind error (KeyError from the dict lookup) and returns no
wrapper. -/
theorem wrap_obj_ref_unregistered (m : Registry) (r : RawObject)
    (h : dictGet m r.kind = none) :
    ∃ e, Wrapper.wrap_obj_ref m r = Except.error e ∧ e.isLookupError = true := by
  refine ⟨PyError.keyError, ?_, rfl⟩
  unfold Wrapper.wrap_obj_ref
  rw [h]

/-- C4 witness: the empty registry and a raw object of kind 3. -/
theorem wrap_obj_ref_unregistered_witness :
    dictGet [] (RawObject.mk 3 7).kind = none
    ∧ ∃ e, Wrapper.wrap_obj_ref [] (RawObject.mk 3 7) = Except.error e
        ∧ e.isLookupError = true :=
  ⟨by decide, wrap_obj_ref_unregistered [] (RawObject.mk 3 7) (by decide)⟩

/-- C5 counterexample: registering raw kind 0 first to wrapper class 10 and
then to wrapper class 20 raises no error and silently replaces the entry:
afterwards the registry maps kind 0 to 20, although it mapped it to 10
before, refuting the claim that re-registration fails and never replaces. -/
theorem register_silently_replaces_cex :
    dictGet (Wrapper.initSubclass (Wrapper.initSubclass [] 0 10) 0 20) 0 = some 20
    ∧ dictGet (Wrapper.initSubclass [] 0 10) 0 = some 10 := by
  constructor <;> rfl

/-- C5 amended: registration always succeeds and records the association,
silently replacing any existing registry entry for the same raw kind. -/
theorem register_overwrites (m : Registry) (rawKind clsTag : Nat) :
    dictGet (Wrapper.initSubclass m rawKind clsTag) rawKind = some clsTag := by
  simp [Wrapper.initSubclass, dictSet, dictGet, List.find?]

/-- C6 counterexample: through the public search_db installed by
set_cache, the claimed input shape parents=[...] (a Python list) raises
TypeError from cache key hashing, not the claimed NotImplementedError. -/
theorem search_db_parents_list_cex :
    Session.search_db_cached [] 0 30 ["Tasks"] (some "Tasks") true (ParentsArg.pyList ["p"])
      = Except.error (PyError.typeError "unhashable type: list")
    ∧ ¬ Session.search_db_cached [] 0 30 ["Tasks"] (some "Tasks") true (ParentsArg.pyList ["p"])
      = Except.error PyError.notImplementedError := by
  exact ⟨rfl, fun h => nomatch h⟩

/-- C6 amended: through the public search_db installed by set_cache, every
call with a non-None parents argument fails loudly rather than silently
ignoring the filter, but the error kind depends on the argument: a
list-valued parents raises TypeError from cache key hashing before the
body runs, while a hashable parents value reaches the body and raises
NotImplementedError; moreover no successful call ever caches an entry
under a non-None parents key, so the miss assumption is invariant. -/
theorem search_db_parents_fails_loudly (entries : List SearchCacheEntry)
    (now ttl : Nat) (allTitles : List String) (dbName : Option String)
    (exactFlag : Bool) (ps : List String) (par : ParentsArg)
    (hinv : noParentsEntries entries = true) :
    Session.search_db_cached entries now ttl allTitles dbName exactFlag (ParentsArg.pyList ps)
      = Except.error (PyError.typeError "unhashable type: list")
    ∧ Session.search_db_cached entries now ttl allTitles dbName exactFlag (ParentsArg.pyTuple ps)
      = Except.error PyError.notImplementedError
    ∧ ∀ res entries2,
        Session.search_db_cached entries now ttl allTitles dbName exactFlag par
          = Except.ok (res, entries2) → noParentsEntries entries2 = true := by
  refine ⟨rfl, search_db_cached_tuple_err entries now ttl allTitles dbName exactFlag ps hinv, ?_⟩
  intro res entries2 heq
  cases par with
  | pyList ps2 =>
      exact absurd heq (by simp [Session.search_db_cached, ParentsArg.isHashable])
  | pyTuple ps2 =>
      rw [search_db_cached_tuple_err entries now ttl allTitles dbName exactFlag ps2 hinv] at heq
      exact absurd heq (by simp)
  | pyNone =>
      unfold Session.search_db_cached at heq
      obtain ⟨dbs0, hok⟩ := search_db_none_ok allTitles dbName exactFlag
      simp only [ParentsArg.isHashable, ParentsArg.toOption, if_true] at heq
      split at heq
      · simp only [Except.ok.injEq, Prod.mk.injEq] at heq
        obtain ⟨-, h2⟩ := heq
        rw [← h2]
        exact hinv
      · rw [hok] at heq
        simp only [Except.ok.injEq, Prod.mk.injEq] at heq
        obtain ⟨-, h2⟩ := heq
        rw [← h2]
        refine List.all_eq_true.mpr (fun e he => ?_)
        rcases List.mem_cons.mp he with h | h
        · rw [h]
          rfl
        · exact List.all_eq_true.mp (noParentsEntries_filter entries _ hinv) e h

/-- C6 witness: the empty cache right after set_cache, a concrete
workspace with one database and a concrete name, the invariant discharged
by computation. -/
theorem search_db_parents_fails_loudly_witness :
    Session.search_db_cached [] 0 30 ["Tasks"] (some "Tasks") true (ParentsArg.pyList ["q"])
      = Except.error (PyError.typeError "unhashable type: list")
    ∧ Session.search_db_cached [] 0 30 ["Tasks"] (some "Tasks") true (ParentsArg.pyTuple ["q"])
      = Except.error PyError.notImplementedError
    ∧ ∀ res entries2,
        Session.search_db_cached [] 0 30 ["Tasks"] (some "Tasks") true ParentsArg.pyNone
          = Except.ok (res, entries2) → noParentsEntries entries2 = true :=
  search_db_parents_fails_loudly [] 0 30 ["Tasks"] (some "Tasks") true ["q"]
    ParentsArg.pyNone (by decide)

/-- C7: raise_for_status returns silently on a successful identity check,
turns a connectivity failure and an API response failure each into a single
SessionError, and lets every other error propagate unchanged. -/
theorem raise_for_status_spec :
    (∀ u : Nat, Session.raise_for_status (WhoamiOutcome.value (some u)) = Except.ok ())
    ∧ Session.raise_for_status WhoamiOutcome.connectErr
        = Except.error (PyError.sessionError "Unable to connect to Notion")
    ∧ (∀ msg : String, Session.raise_for_status (WhoamiOutcome.apiErr msg)
        = Except.error (PyError.sessionError msg))
    ∧ (∀ e : PyError, Session.raise_for_status (WhoamiOutcome.otherErr e)
        = Except.error e) :=
  ⟨fun _ => rfl, rfl, fun _ => rfl, fun _ => rfl⟩

/-- C8: with exact set, search_db returns exactly the databases whose title
equals the name; with exact unset it returns exactly the substring matches
delivered by the transport search. -/
theorem search_db_exact_spec (allTitles : List String) (n : String) :
    Session.search_db allTitles (some n) true none
      = Except.ok ((allTitles.filter (fun t => decide (t = n))).map Database.mk)
    ∧ Session.search_db allTitles (some n) false none
      = Except.ok ((allTitles.filter (fun t => strContains t n)).map Database.mk) := by
  constructor
  · exact congrArg Except.ok (exact_filter_eq n allTitles)
  · rfl

/-- C9: the claim states that whoami returns a high-level User wrapper of
the same kind as the elements of all_users.  On the code this fails: whoami
returns the raw transport user unwrapped, while all_users wraps every raw
user, so the two kinds differ. -/
theorem whoami_returns_raw_user :
    UserValue.isHighLevel (Session.whoami 3) = false
    ∧ (Session.all_users [3, 4]).all UserValue.isHighLevel = true := by
  constructor <;> rfl

/-- C10: SList.item returns the sole element of a one-element list and
raises ValueError on the empty list and on lists with more than one element;
as a pure function of the list it leaves the list unchanged. -/
theorem slist_item_spec {T : Type} (xs : List T) :
    (∀ x : T, xs = [x] → SList.item xs = Except.ok x)
    ∧ (xs = [] → SList.item xs = Except.error (PyError.valueError "list is empty"))
    ∧ (1 < xs.length →
        SList.item xs
          = Except.error (PyError.valueError "list of objects has more than one element")) := by
  refine ⟨?_, ?_, ?_⟩
  · intro x hx
    subst hx
    rfl
  · intro hx
    subst hx
    rfl
  · intro hlen
    have h1 : ¬ xs.length = 1 := by omega
    have h0 : ¬ xs.length = 0 := by omega
    unfold SList.item
    rw [dif_neg h1, if_neg h0]

/-- C10 witness: concrete lists of length one, zero and two. -/
theorem slist_item_spec_witness :
    SList.item [7] = Except.ok 7
    ∧ SList.item ([] : List Nat) = Except.error (PyError.valueError "list is empty")
    ∧ SList.item [1, 2]
        = Except.error (PyError.valueError "list of objects has more than one element") :=
  ⟨(slist_item_spec [7]).1 7 rfl,
   (slist_item_spec ([] : List Nat)).2.1 rfl,
   (slist_item_spec [1, 2]).2.2 (by decide)⟩

end UltimateNotion
